import Mathlib

/-!
Shallow embedding of the background file-upload job system of
`hackathon-bi-2025` (`src/workers/`): the job model and its JSON codec
(`job.rs`), the worker metrics registry (`metrics.rs`), the distributed
lock (`distributed_lock.rs`), the upload consumer (`upload_worker.rs`),
the DLQ consumer classifier (`dlq_worker.rs`) and the supervisor's
graceful shutdown (`main_worker.rs`), together with theorems settling the
spec's claims about them.
-/

namespace HackBI

/-!
## JSON values

Models `serde_json::Value`. Numbers are modelled as `Nat` (the job fields
serialized as numbers — `retry_count : u32` and, in this embedding, the
opaque `Uuid` identifier and the UTC timestamps — are non-negative and
well below their type bounds in every behaviour the claims touch, so no
wrap-around is modelled). The codec is modelled at the JSON-value level:
`serde_json::to_string` / `from_str` round-trip values, so losslessness
of the derived struct codec is the field-by-field conversion below.
-/

inductive Json where
  | null : Json
  | bool : Bool → Json
  | num : Nat → Json
  | str : String → Json
  | arr : List Json → Json
  | obj : List (String × Json) → Json

/-- Models `serde_json::Value::get(key)`: key lookup on an object, `none`
on any non-object value. -/
def Json.get (v : Json) (key : String) : Option Json :=
  match v with
  | .obj fields => fields.lookup key
  | _ => none

/-- Models `serde_json::Value::as_str()`: `some` only on JSON strings. -/
def Json.asStr : Json → Option String
  | .str s => some s
  | _ => none

/-- Models numeric extraction on decode: `some` only on JSON numbers. -/
def Json.asNum : Json → Option Nat
  | .num n => some n
  | _ => none

/-!
## Rust substring test

`str::contains(pat)` for string patterns is a substring test; the workers
use it as the "expired" predicate on `document_url`.
-/

/-- Does `needle` occur as a contiguous run inside `hay`? -/
def containsAux (needle : List Char) : List Char → Bool
  | [] => needle.isEmpty
  | c :: t => needle.isPrefixOf (c :: t) || containsAux needle t

/-- Models Rust `hay.contains(needle)` (substring containment). -/
def strContains (hay needle : String) : Bool :=
  containsAux needle.toList hay.toList

/-- The "expired" predicate used by `upload_file` (upload_worker.rs:275),
`is_recoverable_error` (dlq_worker.rs:232) and `handle_dlq_job`
(dlq_worker.rs:257): `document_url.contains("expired")`. -/
def containsExpired (url : String) : Bool :=
  strContains url "expired"

/-!
## WorkerError (`error.rs`)

The error payloads (Redis errors, serde errors, ...) are modelled as the
strings they display as.
-/

inductive WorkerError where
  | redis : String → WorkerError
  | json : String → WorkerError
  | lockAcquisition : String → WorkerError
  | documentUrlExpired : WorkerError
  | uploadFailed : String → WorkerError
  | shutdown : WorkerError
  | config : String → WorkerError
  | io : String → WorkerError
  | http : String → WorkerError
deriving DecidableEq, Repr

/-!
## FileUploadJob (`job.rs`)

`id : Uuid` (an opaque 128-bit identifier) and the two
`DateTime<Utc>` timestamps are modelled as `Nat`; `metadata` is a JSON
value. `retry_count : u32` — every increment performed by the workers
happens with `retry_count < max_retry < 2^32`, so u32 addition never
wraps there and is modelled as `Nat` addition.
-/

structure FileUploadJob where
  id : Nat
  esign_id : String
  document_url : String
  document_name : String
  document_type : String
  retry_count : Nat
  created_at : Nat
  updated_at : Nat
  metadata : Json

/-- Models `FileUploadJob::increment_retry` (job.rs:50-53): bumps the
counter and stamps `updated_at` with the current time (passed in as
`now`, standing for `Utc::now()`). -/
def FileUploadJob.increment_retry (j : FileUploadJob) (now : Nat) : FileUploadJob :=
  { j with retry_count := j.retry_count + 1, updated_at := now }

/-- Models `FileUploadJob::get_lock_key` (job.rs:55-57). -/
def FileUploadJob.get_lock_key (j : FileUploadJob) : String :=
  "upload_lock:" ++ j.esign_id

/-- Models `FileUploadJob::to_json` (job.rs:59-61): the serde-derived
serializer emits one object with the nine fields, in declaration order. -/
def FileUploadJob.to_json (j : FileUploadJob) : Json :=
  .obj [("id", .num j.id),
        ("esign_id", .str j.esign_id),
        ("document_url", .str j.document_url),
        ("document_name", .str j.document_name),
        ("document_type", .str j.document_type),
        ("retry_count", .num j.retry_count),
        ("created_at", .num j.created_at),
        ("updated_at", .num j.updated_at),
        ("metadata", j.metadata)]

/-- Models `FileUploadJob::from_json` (job.rs:63-65): the serde-derived
deserializer reads each field by key with its expected shape; any missing
or ill-typed field is a decode error (modelled as `none`). -/
def FileUploadJob.from_json (v : Json) : Option FileUploadJob := do
  let id ← (v.get "id").bind Json.asNum
  let esign_id ← (v.get "esign_id").bind Json.asStr
  let document_url ← (v.get "document_url").bind Json.asStr
  let document_name ← (v.get "document_name").bind Json.asStr
  let document_type ← (v.get "document_type").bind Json.asStr
  let retry_count ← (v.get "retry_count").bind Json.asNum
  let created_at ← (v.get "created_at").bind Json.asNum
  let updated_at ← (v.get "updated_at").bind Json.asNum
  let metadata ← v.get "metadata"
  pure { id := id, esign_id := esign_id, document_url := document_url,
         document_name := document_name, document_type := document_type,
         retry_count := retry_count, created_at := created_at,
         updated_at := updated_at, metadata := metadata }

/-!
## WorkerMetrics (`metrics.rs`)

The nine `AtomicU64` cells are modelled as `Nat` fields (every counter in
the behaviours below stays far under `2^64`, so u64 wrap-around of
`fetch_add` never matters). `Ordering::Relaxed` atomics on independent
cells are modelled as plain field updates.
-/

structure WorkerMetrics where
  jobs_processed : Nat
  jobs_succeeded : Nat
  jobs_failed : Nat
  jobs_moved_to_dlq : Nat
  url_expired_errors : Nat
  general_errors : Nat
  total_processing_time_ms : Nat
  main_queue_depth : Nat
  dlq_depth : Nat
deriving DecidableEq, Repr

/-- Models `WorkerMetrics::new` (metrics.rs:26-38): all cells zero. -/
def WorkerMetrics.new : WorkerMetrics :=
  ⟨0, 0, 0, 0, 0, 0, 0, 0, 0⟩

/-- Models `record_job_processed` (metrics.rs:40-42). -/
def WorkerMetrics.record_job_processed (m : WorkerMetrics) : WorkerMetrics :=
  { m with jobs_processed := m.jobs_processed + 1 }

/-- Models `record_job_succeeded` (metrics.rs:44-46). -/
def WorkerMetrics.record_job_succeeded (m : WorkerMetrics) : WorkerMetrics :=
  { m with jobs_succeeded := m.jobs_succeeded + 1 }

/-- Models `record_job_failed` (metrics.rs:48-50). Defined here because
metrics.rs defines it; no worker file ever calls it. -/
def WorkerMetrics.record_job_failed (m : WorkerMetrics) : WorkerMetrics :=
  { m with jobs_failed := m.jobs_failed + 1 }

/-- Models `record_job_moved_to_dlq` (metrics.rs:52-54). -/
def WorkerMetrics.record_job_moved_to_dlq (m : WorkerMetrics) : WorkerMetrics :=
  { m with jobs_moved_to_dlq := m.jobs_moved_to_dlq + 1 }

/-- Models `record_url_expired_error` (metrics.rs:56-58). -/
def WorkerMetrics.record_url_expired_error (m : WorkerMetrics) : WorkerMetrics :=
  { m with url_expired_errors := m.url_expired_errors + 1 }

/-- Models `record_general_error` (metrics.rs:60-62). -/
def WorkerMetrics.record_general_error (m : WorkerMetrics) : WorkerMetrics :=
  { m with general_errors := m.general_errors + 1 }

/-- Models `record_processing_time` (metrics.rs:64-67), the elapsed
duration already converted to whole milliseconds. -/
def WorkerMetrics.record_processing_time (m : WorkerMetrics) (ms : Nat) : WorkerMetrics :=
  { m with total_processing_time_ms := m.total_processing_time_ms + ms }

/-- Models `update_queue_depth` (metrics.rs:69-72). -/
def WorkerMetrics.update_queue_depth (m : WorkerMetrics) (main dlq : Nat) : WorkerMetrics :=
  { m with main_queue_depth := main, dlq_depth := dlq }

/-- The error rate computed by `log_metrics` (metrics.rs:113-117):
`jobs_failed / jobs_processed` when any job was processed, else `0`. The
source divides `f64` values; on the states the claims touch
(`jobs_failed = 0`) the `f64` quotient is exactly `0.0`, so the rational
model is exact there. -/
def WorkerMetrics.error_rate (m : WorkerMetrics) : ℚ :=
  if 0 < m.jobs_processed then (m.jobs_failed : ℚ) / (m.jobs_processed : ℚ) else 0

/-- The high-error-rate warning condition of `log_metrics`
(metrics.rs:77,119-121): the whole body runs only when
`jobs_processed > 0`, and the warning fires when `error_rate > 0.1`.
(`0.1f64` is within `2^-55` of `1/10`; at `jobs_failed = 0` the
comparison against the exact rational agrees with the `f64` one.) -/
def WorkerMetrics.high_error_rate_warning (m : WorkerMetrics) : Prop :=
  0 < m.jobs_processed ∧ (1 : ℚ) / 10 < m.error_rate

/-- The metric-mutating operations that appear anywhere in
`upload_worker.rs`, `dlq_worker.rs` and `main_worker.rs`:
`record_job_processed`, `record_job_succeeded`, `record_url_expired_error`,
`record_general_error`, `record_job_moved_to_dlq`, the timer's
`record_processing_time`, and the depth sampler's `update_queue_depth`.
`record_job_failed` is called from none of them. -/
inductive MetricsOp where
  | jobProcessed : MetricsOp
  | jobSucceeded : MetricsOp
  | urlExpiredError : MetricsOp
  | generalError : MetricsOp
  | jobMovedToDlq : MetricsOp
  | processingTime : Nat → MetricsOp
  | queueDepth : Nat → Nat → MetricsOp
deriving DecidableEq, Repr

/-- Applies one worker-pool metric operation. -/
def applyMetricsOp (m : WorkerMetrics) : MetricsOp → WorkerMetrics
  | .jobProcessed => m.record_job_processed
  | .jobSucceeded => m.record_job_succeeded
  | .urlExpiredError => m.record_url_expired_error
  | .generalError => m.record_general_error
  | .jobMovedToDlq => m.record_job_moved_to_dlq
  | .processingTime ms => m.record_processing_time ms
  | .queueDepth main dlq => m.update_queue_depth main dlq

/-- The metric states reachable from `WorkerMetrics::new` by the
operations the upload and DLQ worker pools invoke. -/
inductive ReachableMetrics : WorkerMetrics → Prop where
  | init : ReachableMetrics WorkerMetrics.new
  | step : ∀ m op, ReachableMetrics m → ReachableMetrics (applyMetricsOp m op)

/-!
## DistributedLock (`distributed_lock.rs`)

The broker state relevant to one lock key is the value stored under that
key: `none` when the key is absent (no live token — the key was never
set, was deleted, or its TTL elapsed), `some tok` when token `tok` is
stored and live.
-/

/-- Models one `SET` attempt of `DistributedLock::acquire`
(distributed_lock.rs:34-47). The `SetOptions` carry only
`with_expiration(SetExpiry::EX(lock_timeout))`; the
`.conditional_set(SetCondition::NX)` line is commented out, so the `SET`
is unconditional: it stores `lock_value` over whatever is there and Redis
replies OK, which converts to `true`. Returns (acquired, new stored
value). -/
def acquire_attempt (lock_value : String) (_stored : Option String) : Bool × Option String :=
  (true, some lock_value)

/-- Modelled from the spec: the `SET key value NX EX ttl` attempt the spec
prescribes (spec §6 and §4.2) — succeed and store the token only when no
live token is stored under the key. Named for comparison with
`acquire_attempt`, which is what the source does. -/
def acquire_attempt_spec_nx (lock_value : String) (stored : Option String) : Bool × Option String :=
  match stored with
  | none => (true, some lock_value)
  | some v => (false, some v)

/-- Models the Lua script of `DistributedLock::release`
(distributed_lock.rs:63-69), executed atomically by the broker: if
`GET key` equals the holder's value then `DEL` it and return 1, else
return 0. Returns (script result, new stored value). -/
def release_script (lock_value : String) (stored : Option String) : Nat × Option String :=
  if stored = some lock_value then (1, none) else (0, stored)

/-- Models `DistributedLock::release` (distributed_lock.rs:60-85):
invokes the compare-and-delete script and reports `released := result == 1`. -/
def release (lock_value : String) (stored : Option String) : Bool × Option String :=
  let r := release_script lock_value stored
  (r.1 == 1, r.2)

/-!
## Upload consumer (`upload_worker.rs`)
-/

/-- The observable actions available to one iteration of the
`run_consumer` loop. `dequeueMain` and `processCall` are the actions the
spec describes; the loop as written performs neither. -/
inductive ConsumerAction where
  | logInfo : ConsumerAction
  | genUuid : ConsumerAction
  | sleepMs : Nat → ConsumerAction
  | dequeueMain : Nat → ConsumerAction
  | processCall : ConsumerAction
  | breakLoop : ConsumerAction
deriving DecidableEq, Repr

/-- Models one iteration of the loop of `FileUploadWorker::run_consumer`
(upload_worker.rs:128-166) as the sequence of actions it performs. With
the shutdown flag set it breaks out; otherwise it logs the polling
message, generates a fresh UUID, logs it, and sleeps 1000 ms. The
dequeue-and-process block (upload_worker.rs:140-165) is commented out in
the source and therefore absent here. -/
def run_consumer_iteration (shutdown : Bool) : List ConsumerAction :=
  if shutdown then [.breakLoop]
  else [.logInfo, .genUuid, .logInfo, .sleepMs 1000]

/-- Models `FileUploadWorker::upload_file` (upload_worker.rs:270-300):
fail with `DocumentUrlExpired` when the URL contains `"expired"`;
otherwise fail with `UploadFailed` when the simulated random failure
(`rand::random::<f32>() < 0.1`, passed in as the oracle `randomFailure`)
fires; otherwise succeed. -/
def upload_file (j : FileUploadJob) (randomFailure : Bool) : Except WorkerError Unit :=
  if containsExpired j.document_url then
    .error .documentUrlExpired
  else if randomFailure then
    .error (.uploadFailed "Random upload failure")
  else
    .ok ()

/-- The effects of one `process_job` call: the final metrics, the jobs
pushed back onto the main queue (`enqueue_job`) and the jobs pushed onto
the DLQ (`move_to_dlq`), in order. -/
structure ProcessEffects where
  metrics : WorkerMetrics
  mainEnqueued : List FileUploadJob
  dlqPushed : List FileUploadJob

/-- Models `FileUploadWorker::process_job` (upload_worker.rs:178-268).
In order: the timer starts and `record_job_processed` runs; the lock over
`job.get_lock_key()` is acquired (`lockAcquired` is the `Ok` outcome of
`acquire`; broker-error propagation via `?` aborts the call and is not
modelled); on lock miss the function returns with no queue effect
(upload_worker.rs:204-207); otherwise it branches on `upload_file`:
success records `record_job_succeeded`; `DocumentUrlExpired` records
`record_url_expired_error` and `record_job_moved_to_dlq` and pushes the
job unchanged to the DLQ; any other error runs `increment_retry` and
`record_general_error`, then re-enqueues to main while the incremented
`retry_count` is below `max_retry` and otherwise records
`record_job_moved_to_dlq` and pushes to the DLQ. On every path the
dropped `MetricsTimer` records the elapsed time `elapsedMs`. -/
def process_job (maxRetry : Nat) (lockAcquired randomFailure : Bool)
    (now elapsedMs : Nat) (j : FileUploadJob) (m : WorkerMetrics) : ProcessEffects :=
  let m1 := m.record_job_processed
  if !lockAcquired then
    ⟨m1.record_processing_time elapsedMs, [], []⟩
  else
    match upload_file j randomFailure with
    | .ok _ =>
        ⟨(m1.record_job_succeeded).record_processing_time elapsedMs, [], []⟩
    | .error .documentUrlExpired =>
        ⟨((m1.record_url_expired_error).record_job_moved_to_dlq).record_processing_time elapsedMs,
         [], [j]⟩
    | .error _ =>
        let j2 := j.increment_retry now
        let m2 := m1.record_general_error
        if j2.retry_count < maxRetry then
          ⟨m2.record_processing_time elapsedMs, [j2], []⟩
        else
          ⟨(m2.record_job_moved_to_dlq).record_processing_time elapsedMs, [], [j2]⟩

/-- Runs `process_job` repeatedly on a job whose upload always fails
(`lockAcquired = true`, `randomFailure = true`, non-expired URL): each
round consumes the re-enqueued job until a round pushes to the DLQ.
Returns `some (number of process calls, the job as pushed to the DLQ,
final metrics)`, or `none` if the fuel runs out first. -/
def run_failing (maxRetry now elapsedMs : Nat) :
    Nat → FileUploadJob → WorkerMetrics → Option (Nat × FileUploadJob × WorkerMetrics)
  | 0, _, _ => none
  | fuel + 1, j, m =>
    let e := process_job maxRetry true true now elapsedMs j m
    match e.dlqPushed with
    | [jd] => some (1, jd, e.metrics)
    | _ =>
      match e.mainEnqueued with
      | [j2] => (run_failing maxRetry now elapsedMs fuel j2 e.metrics).map
          (fun r => (r.1 + 1, r.2))
      | _ => none

/-!
## DLQ consumer (`dlq_worker.rs`)
-/

/-- Models `DlqWorker::is_recoverable_error` (dlq_worker.rs:227-248):
recoverable when the document URL contains `"expired"`; otherwise, when
`metadata.get("error_type")` is present, recoverable when its `as_str()`
is one of the three listed error types; otherwise non-recoverable. -/
def is_recoverable_error (j : FileUploadJob) : Bool :=
  if containsExpired j.document_url then
    true
  else
    match j.metadata.get "error_type" with
    | some error_type =>
      match error_type.asStr with
      | some "temporary_network_error" => true
      | some "rate_limited" => true
      | some "service_unavailable" => true
      | _ => false
    | none => false

/-!
## Supervisor (`main_worker.rs`)
-/

/-- Models `MainWorker::await_shutdown` (main_worker.rs:101-129): it
races `tokio::time::timeout(grace_period, ...)` against an inner future
that is a fixed `sleep(1 s)` followed by `Ok(())` — the source's comment
reads "In a real implementation, you would wait for completion signals.
For now, just wait for a reasonable time". The inner future never
inspects in-flight jobs, so the result depends only on the grace period
(in milliseconds) versus the 1000 ms sleep: a shorter grace period hits
the timeout arm and returns `WorkerError::Shutdown`; otherwise the `Ok`
arm logs final metrics and returns success. (The exact-1000 ms boundary
depends on scheduling and is irrelevant to the claims; it is modelled as
success.) -/
def await_shutdown (gracePeriodMs : Nat) : Except WorkerError Unit :=
  if gracePeriodMs < 1000 then .error .shutdown else .ok ()

/-!
## Concrete sample inputs, used by witnesses and counterexamples
-/

/-- A fresh job with a non-expired URL (cf. spec scenario S1). -/
def sampleJob : FileUploadJob :=
  { id := 1, esign_id := "E1", document_url := "http://ok/1",
    document_name := "doc.pdf", document_type := "application/pdf",
    retry_count := 0, created_at := 10, updated_at := 10,
    metadata := .obj [] }

/-- A fresh job whose URL matches the "expired" predicate (cf. spec
scenario S4). -/
def expiredJob : FileUploadJob :=
  { id := 2, esign_id := "E4", document_url := "http://host/expired/abc",
    document_name := "doc.pdf", document_type := "application/pdf",
    retry_count := 0, created_at := 10, updated_at := 10,
    metadata := .obj [] }

/-!
## Theorems
-/

/-- C1: one iteration of the upload consumer loop with the shutdown flag
unset performs only logging, UUID generation and a 1000 ms sleep — it
never calls `dequeue` on the main queue (for any timeout) and never calls
`process`; the dequeue-and-process block of the spec is commented out in
the source. -/
theorem run_consumer_iteration_no_dequeue :
    run_consumer_iteration false
      = [.logInfo, .genUuid, .logInfo, .sleepMs 1000] ∧
    (∀ t, ConsumerAction.dequeueMain t ∉ run_consumer_iteration false) ∧
    ConsumerAction.processCall ∉ run_consumer_iteration false := by
  refine ⟨rfl, fun t => ?_, ?_⟩ <;> simp [run_consumer_iteration]

/-- C2: the acquire attempt of the source's `DistributedLock::acquire` is
an unconditional `SET` with expiry (the NX conditional is commented out):
it succeeds and overwrites the stored token for every prior state — in
particular it succeeds while another live token `"token-1"` is stored,
where the spec's `SET key value NX EX ttl` attempt fails and leaves
`"token-1"` in place. Mutual exclusion is therefore not enforced, and the
`false`-after-`max_wait` branch is unreachable. -/
theorem acquire_attempt_overwrites_live_token :
    (∀ v st, acquire_attempt v st = (true, some v)) ∧
    acquire_attempt "token-2" (some "token-1") = (true, some "token-2") ∧
    acquire_attempt_spec_nx "token-2" (some "token-1") = (false, some "token-1") :=
  ⟨fun _ _ => rfl, rfl, rfl⟩

/-- C3: when the lock is not acquired, `process_job` returns after
`record_job_processed` and the timer without touching either queue: the
already-consumed job is re-enqueued nowhere (`mainEnqueued = []`), so it
is lost, contrary to the re-enqueue the spec mandates. -/
theorem process_job_lock_miss_drops_job (maxRetry : Nat) (randomFailure : Bool)
    (now el : Nat) (j : FileUploadJob) (m : WorkerMetrics) :
    process_job maxRetry false randomFailure now el j m
      = ⟨(m.record_job_processed).record_processing_time el, [], []⟩ :=
  rfl

/-- C6: decoding the encoded form of any job returns the job with every
field equal: `from_json (to_json j) = some j`. -/
theorem from_json_to_json (j : FileUploadJob) :
    FileUploadJob.from_json j.to_json = some j := by
  cases j
  rfl

/-- C7: `release` runs the atomic compare-and-delete script: the key is
deleted if and only if the stored value equals the holder's token, the
returned flag is `true` exactly when deletion occurred, and when the
token does not match the stored value is left unchanged — a holder never
deletes a key it does not own. -/
theorem release_deletes_iff_token_matches (v : String) (st : Option String) :
    ((release v st).1 = true ↔ st = some v) ∧
    (release v st).2 = (if st = some v then none else st) := by
  unfold release release_script
  by_cases h : st = some v <;> simp [h]

/-- C9: `await_shutdown` races the grace period against a fixed 1 s
sleep and never inspects in-flight jobs: with a 500 ms grace period it
returns the shutdown-timeout error even though nothing is in flight
(drain trivially complete before the deadline), and with a 2000 ms grace
period it returns success at the 1 s mark regardless of whether any
in-flight job has drained. -/
theorem await_shutdown_fixed_sleep :
    await_shutdown 500 = .error .shutdown ∧ await_shutdown 2000 = .ok () :=
  ⟨rfl, rfl⟩

/-- C8: the DLQ classifier marks a job recoverable if and only if its
`document_url` matches the "expired" predicate or
`metadata["error_type"]` is the string `temporary_network_error`,
`rate_limited` or `service_unavailable`; every other job is
non-recoverable. -/
theorem is_recoverable_error_iff (j : FileUploadJob) :
    is_recoverable_error j = true ↔
      containsExpired j.document_url = true ∨
      (j.metadata.get "error_type").bind Json.asStr = some "temporary_network_error" ∨
      (j.metadata.get "error_type").bind Json.asStr = some "rate_limited" ∨
      (j.metadata.get "error_type").bind Json.asStr = some "service_unavailable" := by
  unfold is_recoverable_error
  by_cases hexp : containsExpired j.document_url = true
  · simp [hexp]
  · simp only [hexp, if_false, eq_self_iff_true, false_or, Bool.false_eq_true, ite_false]
    cases hget : j.metadata.get "error_type" with
    | none => simp [hexp]
    | some et =>
      simp only [Option.bind_some, hexp, false_or]
      split <;> simp_all

/-- C10: in every metric state reachable by the operations the upload and
DLQ worker pools invoke, `jobs_failed` is `0` (nothing ever calls
`record_job_failed`), so the error rate computed by `log_metrics` is `0`
and the high-error-rate warning never fires. -/
theorem reachable_metrics_jobs_failed_zero (m : WorkerMetrics)
    (h : ReachableMetrics m) :
    m.jobs_failed = 0 ∧ m.error_rate = 0 ∧ ¬ m.high_error_rate_warning := by
  have hz : m.jobs_failed = 0 := by
    induction h with
    | init => rfl
    | step m0 op h0 ih => cases op <;> exact ih
  have hrate : m.error_rate = 0 := by
    simp [WorkerMetrics.error_rate, hz]
  refine ⟨hz, hrate, ?_⟩
  rintro ⟨-, hgt⟩
  rw [hrate] at hgt
  norm_num at hgt

/-- Witness for C10: a concrete state reached by processing one job
successfully has `jobs_failed = 0`, zero error rate and no warning. -/
theorem reachable_metrics_jobs_failed_zero_witness :
    (applyMetricsOp (applyMetricsOp WorkerMetrics.new .jobProcessed) .jobSucceeded).jobs_failed = 0 ∧
    (applyMetricsOp (applyMetricsOp WorkerMetrics.new .jobProcessed) .jobSucceeded).error_rate = 0 ∧
    ¬ (applyMetricsOp (applyMetricsOp WorkerMetrics.new .jobProcessed) .jobSucceeded).high_error_rate_warning :=
  reachable_metrics_jobs_failed_zero _
    (ReachableMetrics.step _ _ (ReachableMetrics.step _ _ ReachableMetrics.init))

/-- Step lemma: with the lock held, a non-expired URL and a failing
upload, `process_job` whose incremented retry count is still below
`max_retry` re-enqueues exactly the incremented job to main. -/
theorem process_job_fail_reenqueue (maxRetry now el : Nat) (j : FileUploadJob)
    (m : WorkerMetrics) (hexp : containsExpired j.document_url = false)
    (hlt : j.retry_count + 1 < maxRetry) :
    process_job maxRetry true true now el j m =
      ⟨((m.record_job_processed).record_general_error).record_processing_time el,
       [j.increment_retry now], []⟩ := by
  simp [process_job, upload_file, hexp, FileUploadJob.increment_retry, hlt]

/-- Step lemma: with the lock held, a non-expired URL and a failing
upload, `process_job` whose incremented retry count reaches `max_retry`
pushes exactly the incremented job to the DLQ. -/
theorem process_job_fail_dlq (maxRetry now el : Nat) (j : FileUploadJob)
    (m : WorkerMetrics) (hexp : containsExpired j.document_url = false)
    (hge : maxRetry ≤ j.retry_count + 1) :
    process_job maxRetry true true now el j m =
      ⟨(((m.record_job_processed).record_general_error).record_job_moved_to_dlq).record_processing_time el,
       [], [j.increment_retry now]⟩ := by
  have hnlt : ¬ (j.retry_count + 1 < maxRetry) := by omega
  simp [process_job, upload_file, hexp, FileUploadJob.increment_retry, hnlt]

/-- Simulation lemma: a job with a non-expired URL whose every upload
fails, sitting `k ≥ 1` failures away from `max_retry`, is pushed to the
DLQ after exactly `k` further `process_job` calls, carrying
`retry_count = max_retry`. -/
theorem run_failing_exact (maxRetry now el : Nat) :
    ∀ (k : Nat) (j : FileUploadJob) (m : WorkerMetrics),
      containsExpired j.document_url = false →
      j.retry_count + k = maxRetry → 1 ≤ k →
      ∃ mf, run_failing maxRetry now el k j m =
        some (k, { j with retry_count := maxRetry, updated_at := now }, mf) := by
  intro k
  induction k with
  | zero =>
    intro j m _ _ h1
    omega
  | succ n ih =>
    intro j m hexp hsum _
    by_cases hn : n = 0
    · subst hn
      have hge : maxRetry ≤ j.retry_count + 1 := by omega
      have hone : j.retry_count + 1 = maxRetry := by omega
      refine ⟨(((m.record_job_processed).record_general_error).record_job_moved_to_dlq).record_processing_time el, ?_⟩
      simp only [run_failing, process_job_fail_dlq maxRetry now el j m hexp hge]
      simp [FileUploadJob.increment_retry, hone]
    · have hlt : j.retry_count + 1 < maxRetry := by omega
      obtain ⟨mf, hrec⟩ := ih (j.increment_retry now)
        (((m.record_job_processed).record_general_error).record_processing_time el)
        (by simpa [FileUploadJob.increment_retry] using hexp)
        (by simp [FileUploadJob.increment_retry]; omega)
        (by omega)
      refine ⟨mf, ?_⟩
      simp only [run_failing, process_job_fail_reenqueue maxRetry now el j m hexp hlt]
      rw [hrec]
      simp [FileUploadJob.increment_retry]

/-- C4 (amended): for `max_retry ≥ 1`, a fresh job with a non-expired URL
whose every upload fails is incremented on each failure, re-enqueued to
main while the incremented `retry_count` is still below `max_retry`, and
pushed to the DLQ after exactly `max_retry` failed attempts (with
`retry_count = max_retry` at that point); for `max_retry = 0` the source
still pushes on the first failed attempt, so the bound is
`max(max_retry, 1)` in general. -/
theorem process_job_retry_bound (maxRetry : Nat) (hm : 1 ≤ maxRetry)
    (j : FileUploadJob) (h0 : j.retry_count = 0)
    (hexp : containsExpired j.document_url = false)
    (now el : Nat) (m : WorkerMetrics) :
    (∀ (jc : FileUploadJob) (mc : WorkerMetrics),
        containsExpired jc.document_url = false →
        jc.retry_count + 1 < maxRetry →
        (process_job maxRetry true true now el jc mc).mainEnqueued = [jc.increment_retry now] ∧
        (process_job maxRetry true true now el jc mc).dlqPushed = [] ∧
        (jc.increment_retry now).retry_count = jc.retry_count + 1) ∧
    (∀ (jc : FileUploadJob) (mc : WorkerMetrics),
        containsExpired jc.document_url = false →
        maxRetry ≤ jc.retry_count + 1 →
        (process_job maxRetry true true now el jc mc).mainEnqueued = [] ∧
        (process_job maxRetry true true now el jc mc).dlqPushed = [jc.increment_retry now] ∧
        (jc.increment_retry now).retry_count = jc.retry_count + 1) ∧
    ∃ mf, run_failing maxRetry now el maxRetry j m =
      some (maxRetry, { j with retry_count := maxRetry, updated_at := now }, mf) := by
  refine ⟨?_, ?_, ?_⟩
  · intro jc mc hexpc hlt
    rw [process_job_fail_reenqueue maxRetry now el jc mc hexpc hlt]
    exact ⟨rfl, rfl, rfl⟩
  · intro jc mc hexpc hge
    rw [process_job_fail_dlq maxRetry now el jc mc hexpc hge]
    exact ⟨rfl, rfl, rfl⟩
  · exact run_failing_exact maxRetry now el maxRetry j m hexp (by omega) hm

/-- Counterexample for C4 as stated: with `max_retry = 0` a fresh,
always-failing job is pushed to the DLQ after its first failed attempt —
one attempt, not the zero attempts the claim's "exactly `max_retry`"
demands. -/
theorem process_job_retry_bound_counterexample :
    (run_failing 0 11 7 1 sampleJob WorkerMetrics.new).map (fun r => r.1) = some 1 ∧
    (1 : Nat) ≠ 0 := by
  exact ⟨rfl, by decide⟩

/-- Witness for C4: with `max_retry = 3`, the fresh sample job is DLQ'd
after exactly 3 failed attempts with `retry_count = 3`. -/
theorem process_job_retry_bound_witness :
    ∃ mf, run_failing 3 11 7 3 sampleJob WorkerMetrics.new =
      some (3, { sampleJob with retry_count := 3, updated_at := 11 }, mf) :=
  (process_job_retry_bound 3 (by decide) sampleJob rfl (by decide) 11 7 WorkerMetrics.new).2.2

/-- C5: a job whose URL matches the "expired" predicate is pushed to the
DLQ unchanged (same `retry_count`) on the very attempt that observes the
expiry — the url-expired and dlq-moves counters are incremented, nothing
is re-enqueued to main, and the general-error counter (the retry path) is
untouched. -/
theorem process_job_url_expired_short_circuit (maxRetry : Nat)
    (randomFailure : Bool) (now el : Nat) (j : FileUploadJob)
    (m : WorkerMetrics) (hexp : containsExpired j.document_url = true) :
    (process_job maxRetry true randomFailure now el j m).dlqPushed = [j] ∧
    (process_job maxRetry true randomFailure now el j m).mainEnqueued = [] ∧
    (process_job maxRetry true randomFailure now el j m).metrics.url_expired_errors
      = m.url_expired_errors + 1 ∧
    (process_job maxRetry true randomFailure now el j m).metrics.jobs_moved_to_dlq
      = m.jobs_moved_to_dlq + 1 ∧
    (process_job maxRetry true randomFailure now el j m).metrics.general_errors
      = m.general_errors := by
  simp [process_job, upload_file, hexp, WorkerMetrics.record_processing_time,
    WorkerMetrics.record_job_processed, WorkerMetrics.record_url_expired_error,
    WorkerMetrics.record_job_moved_to_dlq]

/-- Witness for C5: the concrete expired-URL job is DLQ'd on its first
attempt with counters moved as claimed. -/
theorem process_job_url_expired_short_circuit_witness :
    (process_job 3 true false 11 7 expiredJob WorkerMetrics.new).dlqPushed = [expiredJob] ∧
    (process_job 3 true false 11 7 expiredJob WorkerMetrics.new).mainEnqueued = [] ∧
    (process_job 3 true false 11 7 expiredJob WorkerMetrics.new).metrics.url_expired_errors
      = WorkerMetrics.new.url_expired_errors + 1 ∧
    (process_job 3 true false 11 7 expiredJob WorkerMetrics.new).metrics.jobs_moved_to_dlq
      = WorkerMetrics.new.jobs_moved_to_dlq + 1 ∧
    (process_job 3 true false 11 7 expiredJob WorkerMetrics.new).metrics.general_errors
      = WorkerMetrics.new.general_errors :=
  process_job_url_expired_short_circuit 3 false 11 7 expiredJob WorkerMetrics.new (by decide)

end HackBI
